import Mathlib

/-!
Shallow embedding of raspi2raspi.c (a Raspberry Pi display-mirroring tool)
and proofs about its configuration parsing, frame pacing, buffer geometry,
signal handling, lifecycle and teardown behaviour.

The program is a single `main` function.  We embed its pure computations
(argument parsing, frame-interval arithmetic, buffer geometry, the signal
handler, the sleep decision) directly, and embed its effectful skeleton
(daemonization, display-session setup, the mirror loop, teardown) as a
trace-producing function over an environment that records the outcome of
every vendor (DispmanX) call.
-/

namespace Raspi2Raspi

/-! ## Constants from the C source -/

/-- DEFAULT_SOURCE_DISPLAY_NUMBER (raspi2raspi.c line 61). -/
def DEFAULT_SOURCE_DISPLAY_NUMBER : Int := 0

/-- DEFAULT_DESTINATION_DISPLAY_NUMBER (raspi2raspi.c line 62). -/
def DEFAULT_DESTINATION_DISPLAY_NUMBER : Int := 5

/-- DEFAULT_FPS (raspi2raspi.c line 63). -/
def DEFAULT_FPS : Int := 10

/-- POSIX signal number for SIGINT. -/
def SIGINT : Int := 2

/-- POSIX signal number for SIGTERM. -/
def SIGTERM : Int := 15

/-! ## C `atoi`

The numeric flags are parsed with `atoi(optarg)`: skip leading whitespace,
accept an optional sign, read a leading run of decimal digits, and yield 0
when no digits are present.  (Overflow is undefined behaviour in C; the
embedding keeps the mathematical value.) -/

/-- C `isspace` characters skipped by `atoi`. -/
def isSpaceChar (c : Char) : Bool :=
  c = ' ' || c = '\t' || c = '\n' || c = '\r' || c = '\x0b' || c = '\x0c'

/-- Accumulate the value of a leading run of decimal digits. -/
def digitsVal : List Char → Nat → Nat
  | [], acc => acc
  | c :: cs, acc => if c.isDigit then digitsVal cs (acc * 10 + (c.toNat - 48)) else acc

/-- C `atoi`. -/
def atoi (s : String) : Int :=
  match s.toList.dropWhile isSpaceChar with
  | '-' :: cs => -(digitsVal cs 0 : Int)
  | '+' :: cs => (digitsVal cs 0 : Int)
  | cs => (digitsVal cs 0 : Int)

/-! ## Configuration state and option processing (raspi2raspi.c lines 117-194) -/

/-- The configuration variables of `main` that the option loop mutates
(raspi2raspi.c lines 117-122). -/
structure Config where
  fps : Int
  frameDuration : Int
  isDaemon : Bool
  sourceDisplayNumber : Int
  destDisplayNumber : Int
  pidfile : Option String
  deriving DecidableEq

/-- Initial values of the configuration variables (raspi2raspi.c lines
117-122): `fps = DEFAULT_FPS`, `frameDuration = 1000000 / fps`. -/
def initialConfig : Config :=
  { fps := DEFAULT_FPS
    frameDuration := 1000000 / DEFAULT_FPS
    isDaemon := false
    sourceDisplayNumber := DEFAULT_SOURCE_DISPLAY_NUMBER
    destDisplayNumber := DEFAULT_DESTINATION_DISPLAY_NUMBER
    pidfile := none }

/-- One option as classified by `getopt_long` against
`"d:f:hp:s:D"` / `lopts` (raspi2raspi.c lines 126-136): a recognized
option together with its argument text, or `unknown` for the cases where
`getopt_long` yields a character outside the option set (an unknown or
malformed flag). -/
inductive Opt where
  | destination (a : String)
  | fpsOpt (a : String)
  | help
  | pidfileOpt (a : String)
  | source (a : String)
  | daemon
  | unknown
  deriving DecidableEq

/-- Output stream of `printUsage` (stdout for `--help`, stderr otherwise). -/
inductive OutStream where
  | stdout
  | stderr
  deriving DecidableEq

/-- Result of processing one option: either the loop continues with an
updated configuration, or the process prints the usage text to the given
stream and exits with the given status. -/
inductive ParseStep where
  | next (c : Config)
  | exit (s : OutStream) (code : Int)
  deriving DecidableEq

/-- The body of the `getopt_long` switch (raspi2raspi.c lines 140-194).
`ParseStep.exit s code` models `printUsage(s, program); exit(code)` with
`EXIT_SUCCESS = 0` and `EXIT_FAILURE = 1`. -/
def processOpt (cfg : Config) : Opt → ParseStep
  | .destination a => .next { cfg with destDisplayNumber := atoi a }
  | .fpsOpt a =>
      let f := atoi a
      if f > 0 then
        .next { cfg with fps := f, frameDuration := 1000000 / f }
      else
        .next { cfg with fps := 1000000 / cfg.frameDuration }
  | .help => .exit .stdout 0
  | .pidfileOpt a => .next { cfg with pidfile := some a }
  | .source a => .next { cfg with sourceDisplayNumber := atoi a }
  | .daemon => .next { cfg with isDaemon := true }
  | .unknown => .exit .stderr 1

/-- Final result of the whole option loop. -/
inductive ParseResult where
  | ok (c : Config)
  | exited (s : OutStream) (code : Int)
  deriving DecidableEq

/-- The `while (getopt_long(...)) != -1` loop (raspi2raspi.c line 140). -/
def parseOpts : Config → List Opt → ParseResult
  | cfg, [] => .ok cfg
  | cfg, o :: os =>
      match processOpt cfg o with
      | .next c => parseOpts c os
      | .exit s code => .exited s code

/-! ## Frame pacing (raspi2raspi.c lines 496-505)

After each iteration the code computes `elapsed_time = end - start` with
`timersub` (so `0 <= tv_usec < 1000000`) and sleeps only when the whole
iteration fitted inside the current second and under the frame interval. -/

/-- The sleep decision at the bottom of the mirror loop (raspi2raspi.c
lines 499-505): `some d` means `usleep(d)` is called, `none` means no
sleep happens. -/
def iterationSleep (frameDuration sec usec : Int) : Option Int :=
  if sec = 0 then
    if usec < frameDuration then some (frameDuration - usec) else none
  else
    none

/-! ## Buffer geometry (raspi2raspi.c lines 57-59 and 328-332) -/

/-- `ALIGN_TO_16(x) = ((x + 15) & ~15)` (raspi2raspi.c line 58).  The C
macro operates on a 32-bit `int`; `~15` as a 32-bit pattern is
`0xFFFFFFF0`, and for `x + 15` within the non-negative `int` range the
signed computation agrees with this natural-number one. -/
def ALIGN_TO_16 (x : Nat) : Nat := (x + 15) &&& 0xFFFFFFF0

/-- `bytesPerPixel` (raspi2raspi.c line 329). -/
def bytesPerPixel : Nat := 4

/-- `pitch = bytesPerPixel * ALIGN_TO_16(destInfo.width)` (line 331). -/
def pitch (width : Nat) : Nat := bytesPerPixel * ALIGN_TO_16 width

/-- `length = pitch * destInfo.height` (line 332): the size passed to
`malloc` for the pixel buffer. -/
def imageLength (width height : Nat) : Nat := pitch width * height

/-! ## Signal handling (raspi2raspi.c lines 67 and 94-106) -/

/-- `signalHandler`: on SIGINT or SIGTERM set `run = false`; any other
signal leaves `run` untouched (the switch has no other case). -/
def signalHandler (signalNumber : Int) (r : Bool) : Bool :=
  if signalNumber = SIGINT ∨ signalNumber = SIGTERM then false else r

/-- The successive values of the `run` flag, starting from `r`, as each
signal in the list is delivered to `signalHandler`.  The head of the
resulting list is the initial value. -/
def traceFrom (r : Bool) : List Int → List Bool
  | [] => [r]
  | s :: ss => r :: traceFrom (signalHandler s r) ss

/-- The value trace of `run` for a delivered-signal list, from its
initializer `volatile bool run = true` (raspi2raspi.c line 67). -/
def runTrace (sigs : List Int) : List Bool := traceFrom true sigs

/-- Number of adjacent false-to-true steps in a boolean trace. -/
def rises : List Bool → Nat
  | a :: b :: rest => (if !a && b then 1 else 0) + rises (b :: rest)
  | _ => 0

/-- Number of adjacent true-to-false steps in a boolean trace. -/
def falls : List Bool → Nat
  | a :: b :: rest => (if a && !b then 1 else 0) + falls (b :: rest)
  | _ => 0

/-! ## Effect-trace model of the rest of `main`

Everything after the option loop is straight-line code calling the vendor
library plus one `while (run)` loop.  We model it as a function producing
the list of observable events of the process, parameterized by an
environment giving the outcome of every fallible call.  The run-flag reads
at the top of each iteration are an oracle sequence, reflecting that
signals may arrive at any time. -/

/-- Observable events of the process. -/
inductive Event where
  | logged (msg : String)
  | stderrMsg (msg : String)
  | pidfileOpened
  | pidfileWritten
  | pidfileRemoved
  | daemonized
  | openlogCalled
  | closelogCalled
  | displayOpened
  | bufferAllocated
  | resourceCreated
  | elementAdded
  | elementRemoved
  | resourceDeleted
  | displayClosed
  | bufferFreed
  | exitCalled (code : Int)
  deriving DecidableEq

/-- Modelled from the spec: `exitAndRemovePidFile(status, pfh)` lives in
this repository's `syslogUtilities` unit, which is not under `src/`; per
the spec's lifecycle/teardown contract it releases the PID-file lock if
held and exits with the given status (spec section 4.2: "release the
PID-file lock if held, and exit with failure status"). -/
def exitAndRemovePidFile (code : Int) (pfhHeld : Bool) : List Event :=
  (if pfhHeld then [Event.pidfileRemoved] else []) ++ [Event.exitCalled code]

/-- A fatal error path inside the display session: `messageLog`
(or `perrorLog`) of the given message, then `exitAndRemovePidFile`
with `EXIT_FAILURE = 1`. -/
def fatal (msg : String) (pfhHeld : Bool) : List Event :=
  Event.logged msg :: exitAndRemovePidFile 1 pfhHeld

/-- Outcomes of the vendor calls and run-flag reads that `main` makes
after daemonization.  Per-iteration outcomes are indexed by the iteration
number. -/
structure Env where
  sigintOk : Bool
  sigtermOk : Bool
  sourceOpenOk : Bool
  sourceInfoOk : Bool
  destOpenOk : Bool
  destInfoOk : Bool
  mallocOk : Bool
  firstUpdateOk : Bool
  elementAddOk : Bool
  firstSubmitOk : Bool
  runReads : Nat → Bool
  snapshotOk : Nat → Bool
  readOk : Nat → Bool
  writeOk : Nat → Bool
  updateStartOk : Nat → Bool
  changeSourceOk : Nat → Bool
  submitOk : Nat → Bool

/-- One iteration body of the mirror loop (raspi2raspi.c lines 432-492),
up to but not including the pacing code: `some msg` means a vendor call
failed and the program logs `msg` and dies, `none` means the iteration
completed.  The return values of `vc_dispmanx_element_change_source`
(line 491) and `vc_dispmanx_update_submit_sync` (line 492) are discarded
by the C code, exactly as the wildcard lets discard them here. -/
def iterStep (env : Env) (i : Nat) : Option String :=
  if !env.snapshotOk i then some "DispmanX snapshot failed"
  else if !env.readOk i then some "DispmanX read data failed"
  else if !env.writeOk i then some "DispmanX write data failed"
  else if !env.updateStartOk i then some "display update failed"
  else
    let _ := env.changeSourceOk i
    let _ := env.submitOk i
    none

/-- The code after the mirror loop (raspi2raspi.c lines 510-538): remove
the element, delete both resources, close both displays, free the buffer,
log "exiting", `closelog()` if daemonized, remove the PID file if held,
and return 0 from `main`. -/
def cleanTeardown (isDaemon pfhHeld : Bool) : List Event :=
  [Event.elementRemoved, Event.resourceDeleted, Event.resourceDeleted,
   Event.displayClosed, Event.displayClosed, Event.bufferFreed,
   Event.logged "exiting"]
    ++ (if isDaemon then [Event.closelogCalled] else [])
    ++ (if pfhHeld then [Event.pidfileRemoved] else [])
    ++ [Event.exitCalled 0]

/-- The `while (run)` loop (raspi2raspi.c lines 430-506) followed by the
teardown, with fuel bounding how many iterations we observe: `none` means
the loop is still running when the fuel runs out. -/
def mirrorLoop (isDaemon pfhHeld : Bool) (env : Env) : Nat → Nat → Option (List Event)
  | _, 0 => none
  | i, fuel + 1 =>
      if env.runReads i then
        match iterStep env i with
        | some msg => some (fatal msg pfhHeld)
        | none => mirrorLoop isDaemon pfhHeld env (i + 1) fuel
      else
        some (cleanTeardown isDaemon pfhHeld)

/-- Events of the fully successful setup (both displays opened, buffer
allocated, both offscreen resources created, element added). -/
def setupEvents : List Event :=
  [Event.displayOpened, Event.displayOpened, Event.bufferAllocated,
   Event.resourceCreated, Event.resourceCreated, Event.elementAdded]

/-- `main` from the signal-handler installation to process exit
(raspi2raspi.c lines 234-538): each fallible step checks its outcome and
takes the corresponding fatal path; successful acquisitions append their
events.  The result of the initial `vc_dispmanx_update_submit_sync`
(line 420) is discarded by the C code, as the wildcard let discards it. -/
def displaySession (isDaemon pfhHeld : Bool) (env : Env) (fuel : Nat) :
    Option (List Event) :=
  if !env.sigintOk then
    some (fatal "installing SIGINT signal handler" pfhHeld)
  else if !env.sigtermOk then
    some (fatal "installing SIGTERM signal handler" pfhHeld)
  else if !env.sourceOpenOk then
    some (fatal "open source display failed" pfhHeld)
  else if !env.sourceInfoOk then
    some ([Event.displayOpened]
      ++ fatal "getting source display dimensions failed" pfhHeld)
  else if !env.destOpenOk then
    some ([Event.displayOpened]
      ++ fatal "open destination display failed" pfhHeld)
  else if !env.destInfoOk then
    some ([Event.displayOpened, Event.displayOpened]
      ++ fatal "getting destination display dimensions failed" pfhHeld)
  else if !env.mallocOk then
    some ([Event.displayOpened, Event.displayOpened]
      ++ fatal "unable to allocate image buffer" pfhHeld)
  else if !env.firstUpdateOk then
    some ([Event.displayOpened, Event.displayOpened, Event.bufferAllocated,
           Event.resourceCreated, Event.resourceCreated]
      ++ fatal "display update failed" pfhHeld)
  else if !env.elementAddOk then
    some ([Event.displayOpened, Event.displayOpened, Event.bufferAllocated,
           Event.resourceCreated, Event.resourceCreated]
      ++ fatal "failed to create DispmanX element" pfhHeld)
  else
    let _ := env.firstSubmitOk
    (mirrorLoop isDaemon pfhHeld env 0 fuel).map (fun tr => setupEvents ++ tr)

/-- Outcomes of the lifecycle (daemonization) phase's fallible steps. -/
structure LifecycleEnv where
  pidfileOpenOk : Bool
  otherpid : Int
  daemonOk : Bool

/-- Result of the lifecycle phase: proceed (recording whether the
PID-file lock is held) or exit. -/
inductive PhaseResult where
  | proceed (pfhHeld : Bool)
  | exited (code : Int)
  deriving DecidableEq

/-- The daemonization block (raspi2raspi.c lines 198-230): when daemon
mode is requested, open and lock the PID file if a path was given
(printing "<program> is already running <otherpid>" to stderr and exiting
with `EXIT_FAILURE` when another process holds the lock), then `daemon()`,
then write the PID file and `openlog()`.  When daemon mode is off the
whole block is skipped and `pfh` stays NULL. -/
def daemonPhase (program : String) (isDaemon : Bool) (pidfile : Option String)
    (lenv : LifecycleEnv) : List Event × PhaseResult :=
  if isDaemon then
    match pidfile with
    | some _ =>
        if lenv.pidfileOpenOk then
          if lenv.daemonOk then
            ([Event.pidfileOpened, Event.daemonized, Event.pidfileWritten,
              Event.openlogCalled], .proceed true)
          else
            ([Event.pidfileOpened, Event.stderrMsg "daemonize failed"]
              ++ exitAndRemovePidFile 1 true, .exited 1)
        else
          ([Event.stderrMsg
              (program ++ " is already running " ++ toString lenv.otherpid ++ "\n"),
            Event.exitCalled 1], .exited 1)
    | none =>
        if lenv.daemonOk then
          ([Event.daemonized, Event.openlogCalled], .proceed false)
        else
          ([Event.stderrMsg "daemonize failed"]
            ++ exitAndRemovePidFile 1 false, .exited 1)
  else ([], .proceed false)

/-- `main` after the option loop: the daemonization block followed by the
display session. -/
def mainModel (program : String) (isDaemon : Bool) (pidfile : Option String)
    (lenv : LifecycleEnv) (env : Env) (fuel : Nat) : Option (List Event) :=
  match daemonPhase program isDaemon pidfile lenv with
  | (tr, .exited _) => some tr
  | (tr, .proceed pfh) => (displaySession isDaemon pfh env fuel).map (tr ++ ·)

/-! ## Count predicates over traces -/

/-- The full-teardown shape: element removed once, both resources
deleted, both displays closed, buffer freed once, PID file removed iff
the lock is held, exit status 0. -/
def fullTeardownCounts (pfh : Bool) (tr : List Event) : Prop :=
  tr.count Event.elementRemoved = 1 ∧ tr.count Event.resourceDeleted = 2
    ∧ tr.count Event.displayClosed = 2 ∧ tr.count Event.bufferFreed = 1
    ∧ tr.count Event.pidfileRemoved = (if pfh then 1 else 0)
    ∧ tr.count (Event.exitCalled 0) = 1 ∧ tr.count (Event.exitCalled 1) = 0

/-- The fatal-exit shape: no element removal, resource deletion, display
close or buffer free; PID file removed iff the lock is held; exit
status 1. -/
def pidOnlyCounts (pfh : Bool) (tr : List Event) : Prop :=
  tr.count Event.elementRemoved = 0 ∧ tr.count Event.resourceDeleted = 0
    ∧ tr.count Event.displayClosed = 0 ∧ tr.count Event.bufferFreed = 0
    ∧ tr.count Event.pidfileRemoved = (if pfh then 1 else 0)
    ∧ tr.count (Event.exitCalled 0) = 0 ∧ tr.count (Event.exitCalled 1) = 1

/-- A trace with none of the teardown-relevant events and no exit. -/
def zeroExitCounts (tr : List Event) : Prop :=
  tr.count Event.elementRemoved = 0 ∧ tr.count Event.resourceDeleted = 0
    ∧ tr.count Event.displayClosed = 0 ∧ tr.count Event.bufferFreed = 0
    ∧ tr.count Event.pidfileRemoved = 0
    ∧ tr.count (Event.exitCalled 0) = 0 ∧ tr.count (Event.exitCalled 1) = 0

/-- A trace without any PID-file operation. -/
def noPidfileOps (tr : List Event) : Prop :=
  tr.count Event.pidfileOpened = 0 ∧ tr.count Event.pidfileWritten = 0
    ∧ tr.count Event.pidfileRemoved = 0

/-- The trace of a second invocation that loses the PID-file lock race:
the stderr message `"%s is already running %jd\n"` (raspi2raspi.c lines
209-212) followed by `exit(EXIT_FAILURE)`. -/
def contentionTrace (program : String) (otherpid : Int) : List Event :=
  [Event.stderrMsg (program ++ " is already running " ++ toString otherpid ++ "\n"),
   Event.exitCalled 1]

/-! ## Concrete environments for counterexamples and witnesses -/

/-- Every call succeeds; the run flag reads false immediately. -/
def envAllOk : Env :=
  { sigintOk := true, sigtermOk := true, sourceOpenOk := true, sourceInfoOk := true
    destOpenOk := true, destInfoOk := true, mallocOk := true, firstUpdateOk := true
    elementAddOk := true, firstSubmitOk := true
    runReads := fun _ => false, snapshotOk := fun _ => true
    readOk := fun _ => true, writeOk := fun _ => true
    updateStartOk := fun _ => true
    changeSourceOk := fun _ => true, submitOk := fun _ => true }

/-- The snapshot call fails on the first iteration. -/
def envSnapshotFails : Env :=
  { envAllOk with runReads := fun _ => true, snapshotOk := fun _ => false }

/-- Both update-submit calls and the change-source call report failure
(all three return values are discarded by the program); the run flag
reads true for the first iteration only. -/
def envSubmitFails : Env :=
  { envAllOk with
      runReads := fun i => i == 0
      firstSubmitOk := false
      changeSourceOk := fun _ => false
      submitOk := fun _ => false }

/-- The per-frame update-start call fails on the first iteration. -/
def envUpdateStartFails : Env :=
  { envAllOk with runReads := fun _ => true, updateStartOk := fun _ => false }

/-- Lifecycle phase with every step succeeding. -/
def lenvOk : LifecycleEnv := { pidfileOpenOk := true, otherpid := 0, daemonOk := true }

/-- Lifecycle phase where another instance (PID 1234) holds the lock. -/
def lenvBusy : LifecycleEnv := { pidfileOpenOk := false, otherpid := 1234, daemonOk := true }

/-! # Theorems -/

/-- Bit-masking with the 32-bit pattern of `~15` clears the low four bits:
for inputs in the 32-bit range it computes the largest multiple of 16 not
exceeding the input. -/
theorem land_mask (a : Nat) (ha : a < 2 ^ 32) :
    a &&& 0xFFFFFFF0 = a / 16 * 16 := by
  have hm : (0xFFFFFFF0 : Nat) = (2 ^ 28 - 1) <<< 4 := by decide
  have hd : a / 16 * 16 = (a >>> 4) <<< 4 := by
    rw [Nat.shiftRight_eq_div_pow, Nat.shiftLeft_eq]
  rw [hm, hd]
  apply Nat.eq_of_testBit_eq
  intro i
  rw [Nat.testBit_land, Nat.testBit_shiftLeft, Nat.testBit_shiftLeft,
      Nat.testBit_shiftRight, Nat.testBit_two_pow_sub_one]
  by_cases h4 : 4 ≤ i
  · by_cases h32 : i < 32
    · have h1 : 4 + (i - 4) = i := by omega
      have h2 : i - 4 < 28 := by omega
      simp [h4, h1, h2, ge_iff_le]
    · have hf : a.testBit i = false :=
        Nat.testBit_lt_two_pow
          (lt_of_lt_of_le ha (Nat.pow_le_pow_right (by norm_num) (by omega)))
      have h1 : 4 + (i - 4) = i := by omega
      have h2 : ¬ (i - 4 < 28) := by omega
      simp [h4, h1, h2, hf, ge_iff_le]
  · simp [h4, ge_iff_le]

/-- `ALIGN_TO_16` rounds `x` up to the next multiple of 16 whenever
`x + 15` stays in the 32-bit range. -/
theorem align16_eq (x : Nat) (hx : x + 15 < 2 ^ 32) :
    ALIGN_TO_16 x = (x + 15) / 16 * 16 := land_mask (x + 15) hx

/-- C4: for every destination geometry whose computation stays in the
non-negative `int32_t` range, the pixel-buffer length equals
4 × (width rounded up to the next multiple of 16) × height, the row
stride (`pitch`) is 4 × the rounded-up width, and the stride is a
multiple of 64 bytes.  The term `16 * ((w + 15) / 16)` is the round-up:
it is at least `w`, below `w + 16`, and a multiple of 16. -/
theorem buffer_geometry (w h : Nat) (hw : w + 15 < 2 ^ 31)
    (hlen : pitch w * h < 2 ^ 31) :
    imageLength w h = 4 * (16 * ((w + 15) / 16)) * h
    ∧ pitch w = 4 * (16 * ((w + 15) / 16))
    ∧ w ≤ 16 * ((w + 15) / 16)
    ∧ 16 * ((w + 15) / 16) < w + 16
    ∧ 16 ∣ 16 * ((w + 15) / 16)
    ∧ 64 ∣ pitch w := by
  have hL : ALIGN_TO_16 w = (w + 15) / 16 * 16 := align16_eq w (by omega)
  refine ⟨?_, ?_, by omega, by omega, ⟨(w + 15) / 16, rfl⟩, ?_⟩
  · simp only [imageLength, pitch, bytesPerPixel, hL]; ring
  · simp only [pitch, bytesPerPixel, hL]; ring
  · exact ⟨(w + 15) / 16, by simp only [pitch, bytesPerPixel, hL]; ring⟩

/-- Witness for `buffer_geometry` at the 1920×1080 geometry. -/
theorem buffer_geometry_witness :
    1920 + 15 < 2 ^ 31
    ∧ pitch 1920 * 1080 < 2 ^ 31
    ∧ imageLength 1920 1080 = 4 * (16 * ((1920 + 15) / 16)) * 1080
    ∧ 64 ∣ pitch 1920 :=
  ⟨by norm_num, by decide,
   (buffer_geometry 1920 1080 (by norm_num) (by decide)).1,
   (buffer_geometry 1920 1080 (by norm_num) (by decide)).2.2.2.2.2⟩

/-- C3: the frame interval is computed as `1000000 / fps` (integer
division) both for the default `fps = 10` and for every `--fps` argument
whose `atoi` value is strictly positive. -/
theorem frameDuration_from_fps :
    initialConfig.fps = DEFAULT_FPS
    ∧ initialConfig.frameDuration = 1000000 / initialConfig.fps
    ∧ ∀ (cfg : Config) (a : String), 0 < atoi a →
        processOpt cfg (Opt.fpsOpt a) =
          ParseStep.next { cfg with fps := atoi a, frameDuration := 1000000 / atoi a } := by
  refine ⟨rfl, by decide, ?_⟩
  intro cfg a h
  simp [processOpt, h]

/-- Witness for `frameDuration_from_fps` at `--fps 25`. -/
theorem frameDuration_from_fps_witness :
    0 < atoi "25"
    ∧ processOpt initialConfig (Opt.fpsOpt "25") =
        ParseStep.next { initialConfig with fps := 25, frameDuration := 40000 } :=
  ⟨by decide, (frameDuration_from_fps.2.2 initialConfig "25" (by decide)).trans (by decide)⟩

/-- C9: option processing terminates the process in exactly two cases —
`--help` prints usage to stdout and exits 0, and an unknown or malformed
flag prints usage to stderr and exits 1 — and every other recognized
option just produces an updated configuration. -/
theorem option_parsing_exits :
    (∀ cfg, processOpt cfg Opt.help = ParseStep.exit OutStream.stdout 0)
    ∧ (∀ cfg, processOpt cfg Opt.unknown = ParseStep.exit OutStream.stderr 1)
    ∧ (∀ cfg o, (∃ s c, processOpt cfg o = ParseStep.exit s c) ↔ o = Opt.help ∨ o = Opt.unknown)
    ∧ (∀ cfg o, o ≠ Opt.help → o ≠ Opt.unknown →
        ∃ c, processOpt cfg o = ParseStep.next c) := by
  refine ⟨fun _ => rfl, fun _ => rfl, ?_, ?_⟩
  · intro cfg o
    cases o <;> simp [processOpt]
    split <;> simp
  · intro cfg o h1 h2
    cases o <;> simp_all [processOpt]
    split <;> exact ⟨_, rfl⟩

/-- Witness for `option_parsing_exits` at `--help` and `--daemon`. -/
theorem option_parsing_witness :
    processOpt initialConfig Opt.help = ParseStep.exit OutStream.stdout 0
    ∧ ∃ c, processOpt initialConfig Opt.daemon = ParseStep.next c :=
  ⟨option_parsing_exits.1 initialConfig,
   option_parsing_exits.2.2.2 initialConfig Opt.daemon (by decide) (by decide)⟩

/-- C7: with `timersub`-normalized elapsed time (`0 ≤ sec`,
`0 ≤ usec < 1000000`) and a frame interval of at most one second (always
true for `1000000 / fps` with `fps ≥ 1`), the loop sleeps exactly
`frameDuration - usec` when the elapsed seconds are zero and the elapsed
microseconds are under the interval, and does not sleep in every other
case; equivalently, it sleeps exactly the remainder of the interval iff
the total elapsed microseconds are under the interval. -/
theorem sleep_decision (fd sec usec : Int) (hsec : 0 ≤ sec) (husec : 0 ≤ usec)
    (husec2 : usec < 1000000) (hfd : fd ≤ 1000000) :
    (sec = 0 ∧ usec < fd → iterationSleep fd sec usec = some (fd - usec))
    ∧ (1 ≤ sec ∨ fd ≤ usec → iterationSleep fd sec usec = none)
    ∧ iterationSleep fd sec usec =
        (if 1000000 * sec + usec < fd then some (fd - (1000000 * sec + usec)) else none) := by
  refine ⟨?_, ?_, ?_⟩
  · rintro ⟨h0, hlt⟩
    subst h0
    simp [iterationSleep, hlt]
  · rintro (h | h)
    · have hne : sec ≠ 0 := by omega
      simp [iterationSleep, hne]
    · by_cases h0 : sec = 0
      · subst h0; simp [iterationSleep, not_lt.mpr h]
      · simp [iterationSleep, h0]
  · by_cases h0 : sec = 0
    · subst h0; simp [iterationSleep]
    · have hbig : ¬ (1000000 * sec + usec < fd) := by
        have : 1 ≤ sec := by omega
        nlinarith
      simp [iterationSleep, h0, hbig]

/-- Witness for `sleep_decision`: a 30 ms iteration at 10 fps sleeps
70 ms. -/
theorem sleep_decision_witness :
    iterationSleep 100000 0 30000 = some 70000 :=
  (sleep_decision 100000 0 30000 (by decide) (by decide) (by decide) (by decide)).1
    ⟨rfl, by decide⟩

/-- C1 counterexample: after `--fps 0` the configuration is unchanged
(`fps` is recomputed to 10 and `frameDuration` stays 100000 µs), and an
iteration that finishes instantly still sleeps 100000 µs — so a
zero/negative/malformed fps argument does not disable frame-interval
sleeping. -/
theorem fps_zero_still_sleeps_cex :
    parseOpts initialConfig [Opt.fpsOpt "0"] = ParseResult.ok initialConfig
    ∧ initialConfig.frameDuration = 100000
    ∧ iterationSleep initialConfig.frameDuration 0 0 = some 100000 := by decide

/-- C1 amended: an fps argument with non-positive `atoi` value leaves
`frameDuration` unchanged and merely recomputes `fps` as
`1000000 / frameDuration`; sleeping by the unchanged interval still
occurs (an instant iteration sleeps the full interval). -/
theorem fps_nonpositive_keeps_interval (cfg : Config) (a : String) (h : atoi a ≤ 0) :
    processOpt cfg (Opt.fpsOpt a) =
      ParseStep.next { cfg with fps := 1000000 / cfg.frameDuration }
    ∧ (0 < cfg.frameDuration →
        iterationSleep cfg.frameDuration 0 0 = some cfg.frameDuration) := by
  constructor
  · simp [processOpt, if_neg (by omega : ¬ atoi a > 0)]
  · intro hp
    simp [iterationSleep, hp]

/-- Witness for `fps_nonpositive_keeps_interval` at `--fps -3`. -/
theorem fps_nonpositive_witness :
    atoi "-3" ≤ 0
    ∧ processOpt initialConfig (Opt.fpsOpt "-3") =
        ParseStep.next { initialConfig with fps := 1000000 / initialConfig.frameDuration }
    ∧ iterationSleep initialConfig.frameDuration 0 0 = some initialConfig.frameDuration :=
  ⟨by decide, (fps_nonpositive_keeps_interval initialConfig "-3" (by decide)).1,
   (fps_nonpositive_keeps_interval initialConfig "-3" (by decide)).2 (by decide)⟩

/-- The handler never turns an already-false run flag back on. -/
theorem handler_from_false (s : Int) : signalHandler s false = false := by
  unfold signalHandler
  split <;> rfl

/-- A run-flag trace always starts with its initial value. -/
theorem traceFrom_head (r : Bool) (l : List Int) : ∃ t, traceFrom r l = r :: t := by
  cases l <;> exact ⟨_, rfl⟩

/-- No run-flag trace ever steps from false back to true. -/
theorem rises_traceFrom (l : List Int) : ∀ r, rises (traceFrom r l) = 0 := by
  induction l with
  | nil => intro r; rfl
  | cons s ss ih =>
      intro r
      obtain ⟨t, ht⟩ := traceFrom_head (signalHandler s r) ss
      have h1 : rises (signalHandler s r :: t) = 0 := ht ▸ ih (signalHandler s r)
      show rises (r :: traceFrom (signalHandler s r) ss) = 0
      cases r
      · rw [handler_from_false] at ht h1
        rw [handler_from_false, ht]
        simpa [rises] using h1
      · rw [ht]
        simp [rises, h1]

/-- A run-flag trace steps from true to false at most once (never, when
it starts false). -/
theorem falls_traceFrom (l : List Int) : ∀ r, falls (traceFrom r l) ≤ if r then 1 else 0 := by
  induction l with
  | nil => intro r; cases r <;> simp [traceFrom, falls]
  | cons s ss ih =>
      intro r
      obtain ⟨t, ht⟩ := traceFrom_head (signalHandler s r) ss
      have h1 : falls (signalHandler s r :: t) ≤ if signalHandler s r then 1 else 0 :=
        ht ▸ ih (signalHandler s r)
      show falls (r :: traceFrom (signalHandler s r) ss) ≤ if r then 1 else 0
      cases r
      · rw [handler_from_false] at ht h1
        rw [handler_from_false, ht]
        simpa [falls] using h1
      · rw [ht]
        cases hh : signalHandler s true
        · rw [hh] at h1
          simp [falls] at h1 ⊢
          omega
        · rw [hh] at h1
          simp [falls] at h1 ⊢
          omega

/-- C6: the run flag starts true; the handler is monotone (it can only
keep or clear the flag, never set it); signals other than SIGINT and
SIGTERM leave the flag untouched; and along any delivered-signal
sequence the flag's value trace never goes false→true and goes
true→false at most once. -/
theorem run_flag_monotone :
    (∀ sigs : List Int, (runTrace sigs).head? = some true)
    ∧ (∀ (s : Int) (r : Bool), signalHandler s r = true → r = true)
    ∧ (∀ (s : Int) (r : Bool), s ≠ SIGINT → s ≠ SIGTERM → signalHandler s r = r)
    ∧ (∀ sigs : List Int, rises (runTrace sigs) = 0)
    ∧ (∀ sigs : List Int, falls (runTrace sigs) ≤ 1) := by
  refine ⟨?_, ?_, ?_, ?_, ?_⟩
  · intro sigs
    obtain ⟨t, ht⟩ := traceFrom_head true sigs
    rw [runTrace, ht]
    rfl
  · intro s r h
    cases r
    · rw [handler_from_false] at h
      exact h
    · rfl
  · intro s r h1 h2
    simp [signalHandler, h1, h2]
  · intro sigs
    exact rises_traceFrom sigs true
  · intro sigs
    simpa using falls_traceFrom sigs true

/-- Witness for `run_flag_monotone` on the signal sequence 9, 2, 7. -/
theorem run_flag_witness :
    (runTrace [9, 2, 7]).head? = some true
    ∧ signalHandler 9 true = true
    ∧ rises (runTrace [9, 2, 7]) = 0
    ∧ falls (runTrace [9, 2, 7]) ≤ 1 :=
  ⟨run_flag_monotone.1 [9, 2, 7],
   run_flag_monotone.2.2.1 9 true (by decide) (by decide),
   run_flag_monotone.2.2.2.1 [9, 2, 7],
   run_flag_monotone.2.2.2.2 [9, 2, 7]⟩

/-- A completed mirror loop either died on a failed per-iteration vendor
call (a `fatal` trace) or observed the run flag false and performed the
clean teardown. -/
theorem mirrorLoop_shape (isD pfh : Bool) (env : Env) :
    ∀ fuel i, mirrorLoop isD pfh env i fuel = none
      ∨ (∃ msg, mirrorLoop isD pfh env i fuel = some (fatal msg pfh))
      ∨ mirrorLoop isD pfh env i fuel = some (cleanTeardown isD pfh) := by
  intro fuel
  induction fuel with
  | zero => intro i; left; rfl
  | succ n ih =>
      intro i
      by_cases hr : env.runReads i
      · cases hst : iterStep env i with
        | some msg =>
            right; left
            exact ⟨msg, by simp [mirrorLoop, hr, hst]⟩
        | none =>
            have h := ih (i + 1)
            simpa [mirrorLoop, hr, hst] using h
      · right; right
        simp [mirrorLoop, hr]

/-- The clean-exit code performs the full teardown exactly once. -/
theorem counts_cleanTeardown (isD pfh : Bool) :
    fullTeardownCounts pfh (cleanTeardown isD pfh) := by
  cases isD <;> cases pfh <;> (unfold fullTeardownCounts; decide)

/-- A fatal exit releases only the PID-file lock (when held). -/
theorem counts_fatal (msg : String) (pfh : Bool) :
    pidOnlyCounts pfh (fatal msg pfh) := by
  cases pfh <;>
    simp [pidOnlyCounts, fatal, exitAndRemovePidFile, List.count_cons, List.count_nil]

/-- Prepending teardown-free events preserves the fatal count shape. -/
theorem pidOnly_append (p t : List Event) (pfh : Bool) (hp : zeroExitCounts p)
    (ht : pidOnlyCounts pfh t) : pidOnlyCounts pfh (p ++ t) := by
  obtain ⟨a1, a2, a3, a4, a5, a6, a7⟩ := hp
  obtain ⟨b1, b2, b3, b4, b5, b6, b7⟩ := ht
  refine ⟨?_, ?_, ?_, ?_, ?_, ?_, ?_⟩ <;>
    simp [List.count_append, a1, a2, a3, a4, a5, a6, a7, b1, b2, b3, b4, b5, b6, b7]

/-- Prepending teardown-free events preserves the clean count shape. -/
theorem full_append (p t : List Event) (pfh : Bool) (hp : zeroExitCounts p)
    (ht : fullTeardownCounts pfh t) : fullTeardownCounts pfh (p ++ t) := by
  obtain ⟨a1, a2, a3, a4, a5, a6, a7⟩ := hp
  obtain ⟨b1, b2, b3, b4, b5, b6, b7⟩ := ht
  refine ⟨?_, ?_, ?_, ?_, ?_, ?_, ?_⟩ <;>
    simp [List.count_append, a1, a2, a3, a4, a5, a6, a7, b1, b2, b3, b4, b5, b6, b7]

/-- Every completed display session has the clean-teardown count shape or
the fatal (PID-file-only) count shape. -/
theorem displaySession_paths (isD pfh : Bool) (env : Env) (fuel : Nat) (tr : List Event)
    (h : displaySession isD pfh env fuel = some tr) :
    fullTeardownCounts pfh tr ∨ pidOnlyCounts pfh tr := by
  unfold displaySession at h
  split_ifs at h <;>
    first
      | (right
         injection h with h
         subst h
         first
           | exact counts_fatal _ _
           | exact pidOnly_append _ _ _ (by unfold zeroExitCounts; decide) (counts_fatal _ _))
      | (rcases mirrorLoop_shape isD pfh env fuel 0 with hm | ⟨msg, hm⟩ | hm <;> rw [hm] at h
         · simp at h
         · right
           simp only [Option.map_some'] at h
           injection h with h
           subst h
           exact pidOnly_append _ _ _ (by unfold zeroExitCounts; decide) (counts_fatal _ _)
         · left
           simp only [Option.map_some'] at h
           injection h with h
           subst h
           exact full_append _ _ _ (by unfold zeroExitCounts; decide)
             (counts_cleanTeardown _ _))

/-- The daemonization block either proceeds with a teardown-free trace or
exits with the fatal count shape. -/
theorem daemonPhase_shape (program : String) (isD : Bool) (pf : Option String)
    (lenv : LifecycleEnv) :
    (∃ pfh tr, daemonPhase program isD pf lenv = (tr, .proceed pfh) ∧ zeroExitCounts tr)
    ∨ (∃ pfh tr, daemonPhase program isD pf lenv = (tr, .exited 1) ∧ pidOnlyCounts pfh tr) := by
  cases isD with
  | false => exact .inl ⟨false, [], rfl, by unfold zeroExitCounts; decide⟩
  | true =>
      cases pf with
      | none =>
          by_cases hdm : lenv.daemonOk
          · exact .inl ⟨false, [Event.daemonized, Event.openlogCalled],
              by simp [daemonPhase, hdm], by unfold zeroExitCounts; decide⟩
          · exact .inr ⟨false,
              [Event.stderrMsg "daemonize failed"] ++ exitAndRemovePidFile 1 false,
              by simp [daemonPhase, hdm],
              by unfold pidOnlyCounts exitAndRemovePidFile; decide⟩
      | some p =>
          by_cases hpo : lenv.pidfileOpenOk
          · by_cases hdm : lenv.daemonOk
            · exact .inl ⟨true,
                [Event.pidfileOpened, Event.daemonized, Event.pidfileWritten,
                 Event.openlogCalled],
                by simp [daemonPhase, hpo, hdm], by unfold zeroExitCounts; decide⟩
            · exact .inr ⟨true,
                [Event.pidfileOpened, Event.stderrMsg "daemonize failed"]
                  ++ exitAndRemovePidFile 1 true,
                by simp [daemonPhase, hpo, hdm],
                by unfold pidOnlyCounts exitAndRemovePidFile; decide⟩
          · exact .inr ⟨false,
              [Event.stderrMsg (program ++ " is already running "
                ++ toString lenv.otherpid ++ "\n"), Event.exitCalled 1],
              by simp [daemonPhase, hpo],
              by simp [pidOnlyCounts, List.count_cons]⟩

/-- C2 amended: on the clean loop-exit path the full teardown runs
exactly once (element removed once, two resource deletions, two display
closes, one buffer free, PID file removed iff held, exit 0); on every
fatal path only the PID-file release (when held) precedes the exit-1 —
the element, offscreen resources, display handles and pixel buffer are
not explicitly released there. -/
theorem teardown_paths (program : String) (isDaemon : Bool) (pidfile : Option String)
    (lenv : LifecycleEnv) (env : Env) (fuel : Nat) (tr : List Event)
    (h : mainModel program isDaemon pidfile lenv env fuel = some tr) :
    ∃ pfh : Bool, fullTeardownCounts pfh tr ∨ pidOnlyCounts pfh tr := by
  unfold mainModel at h
  rcases daemonPhase_shape program isDaemon pidfile lenv with
    ⟨pfh, dtr, hd, hz⟩ | ⟨pfh, dtr, hd, hp⟩
  · rw [hd] at h
    have h2 : Option.map (fun x => dtr ++ x) (displaySession isDaemon pfh env fuel)
        = some tr := h
    cases hds : displaySession isDaemon pfh env fuel with
    | none => rw [hds] at h2; simp at h2
    | some str =>
        rw [hds] at h2
        simp only [Option.map_some'] at h2
        injection h2 with h2
        subst h2
        rcases displaySession_paths isDaemon pfh env fuel str hds with hc | hf
        · exact ⟨pfh, .inl (full_append dtr str pfh hz hc)⟩
        · exact ⟨pfh, .inr (pidOnly_append dtr str pfh hz hf)⟩
  · rw [hd] at h
    have h2 : some dtr = some tr := h
    injection h2 with h2
    subst h2
    exact ⟨pfh, .inr hp⟩

/-- C2 counterexample: a PID-file daemon run whose snapshot call fails on
the first iteration exits with status 1 having removed the PID file but
without closing either display, removing the element, deleting either
resource, or freeing the buffer — the full teardown does not run on this
fatal path. -/
theorem teardown_missing_on_fatal_cex :
    (mainModel "raspi2raspi" true (some "/tmp/x.pid") lenvOk envSnapshotFails 1).map
        (fun tr => (tr.count Event.displayClosed, tr.count Event.elementRemoved,
          tr.count Event.resourceDeleted, tr.count Event.bufferFreed,
          tr.count Event.pidfileRemoved, tr.count (Event.exitCalled 1)))
      = some (0, 0, 0, 0, 1, 1) := by decide

/-- Witness for `teardown_paths` on a foreground run that exits cleanly
after zero iterations. -/
theorem teardown_paths_witness :
    ∃ pfh : Bool,
      fullTeardownCounts pfh (setupEvents ++ cleanTeardown false false)
      ∨ pidOnlyCounts pfh (setupEvents ++ cleanTeardown false false) :=
  teardown_paths "p" false none lenvOk envAllOk 1
    (setupEvents ++ cleanTeardown false false) (by decide)

/-- C5 counterexample: with both update-submit calls and the
change-source call reporting failure, the program still completes its
iteration and exits cleanly with status 0 — those failures are not
fatal, because their return values are discarded. -/
theorem flip_failures_not_fatal_cex :
    (displaySession false false envSubmitFails 2).map
        (fun tr => (tr.count (Event.exitCalled 0), tr.count (Event.exitCalled 1)))
      = some (1, 0) := by decide

/-- C5 amended: in the per-frame flip only the update-start failure is
fatal (it is checked, logged, and followed by an exit-1 path); the
results of `vc_dispmanx_element_change_source`, the per-frame
`vc_dispmanx_update_submit_sync`, and the initial submit are discarded,
so changing their outcomes never alters the execution. -/
theorem flip_only_update_start_checked :
    (∀ (env : Env) (i : Nat),
        env.snapshotOk i = true → env.readOk i = true → env.writeOk i = true →
        env.updateStartOk i = false → iterStep env i = some "display update failed")
    ∧ (∀ (env : Env) (cs ss : Nat → Bool) (fs : Bool) (isD pfh : Bool) (fuel : Nat),
        displaySession isD pfh
            { env with changeSourceOk := cs, submitOk := ss, firstSubmitOk := fs } fuel
          = displaySession isD pfh env fuel) := by
  constructor
  · intro env i h1 h2 h3 h4
    simp [iterStep, h1, h2, h3, h4]
  · intro env cs ss fs isD pfh fuel
    have hiter : ∀ i,
        iterStep { env with changeSourceOk := cs, submitOk := ss, firstSubmitOk := fs } i
          = iterStep env i := fun i => rfl
    have hloop : ∀ f i,
        mirrorLoop isD pfh
            { env with changeSourceOk := cs, submitOk := ss, firstSubmitOk := fs } i f
          = mirrorLoop isD pfh env i f := by
      intro f
      induction f with
      | zero => intro i; rfl
      | succ n ih => intro i; simp [mirrorLoop, hiter, ih]
    simp [displaySession, hloop]

/-- Witness for `flip_only_update_start_checked`: a failed update-start
is fatal, and failing both submits and the change-source call leaves the
execution unchanged. -/
theorem flip_only_update_start_checked_witness :
    iterStep envUpdateStartFails 0 = some "display update failed"
    ∧ displaySession false false
        { envAllOk with
            changeSourceOk := fun _ => false
            submitOk := fun _ => false
            firstSubmitOk := false } 1
      = displaySession false false envAllOk 1 :=
  ⟨flip_only_update_start_checked.1 envUpdateStartFails 0 rfl rfl rfl rfl,
   flip_only_update_start_checked.2 envAllOk (fun _ => false) (fun _ => false)
     false false false 1⟩

/-- C8: in daemon mode with a PID-file path, when another instance holds
the lock the process writes "<program> is already running <otherpid>" to
stderr and exits with status 1; the trace shows it never detached
(`daemon()` not called), opened no display, and wrote no PID file. -/
theorem pidfile_contention_fails_fast (program path : String) (lenv : LifecycleEnv)
    (env : Env) (fuel : Nat) (h : lenv.pidfileOpenOk = false) :
    mainModel program true (some path) lenv env fuel =
      some (contentionTrace program lenv.otherpid)
    ∧ Event.daemonized ∉ contentionTrace program lenv.otherpid
    ∧ Event.displayOpened ∉ contentionTrace program lenv.otherpid
    ∧ Event.pidfileWritten ∉ contentionTrace program lenv.otherpid
    ∧ (contentionTrace program lenv.otherpid).count (Event.exitCalled 1) = 1 := by
  refine ⟨?_, by simp [contentionTrace], by simp [contentionTrace],
    by simp [contentionTrace], by simp [contentionTrace, List.count_cons]⟩
  simp [mainModel, daemonPhase, h, contentionTrace]

/-- Witness for `pidfile_contention_fails_fast` with the other instance
at PID 1234. -/
theorem pidfile_contention_witness :
    mainModel "raspi2raspi" true (some "/tmp/x.pid") lenvBusy envAllOk 0 =
      some (contentionTrace "raspi2raspi" lenvBusy.otherpid)
    ∧ Event.daemonized ∉ contentionTrace "raspi2raspi" lenvBusy.otherpid
    ∧ Event.displayOpened ∉ contentionTrace "raspi2raspi" lenvBusy.otherpid
    ∧ Event.pidfileWritten ∉ contentionTrace "raspi2raspi" lenvBusy.otherpid
    ∧ (contentionTrace "raspi2raspi" lenvBusy.otherpid).count (Event.exitCalled 1) = 1 :=
  pidfile_contention_fails_fast "raspi2raspi" "/tmp/x.pid" lenvBusy envAllOk 0 rfl

/-- Appending traces without PID-file operations yields a trace without
PID-file operations. -/
theorem noPidfileOps_append (p t : List Event) (hp : noPidfileOps p) (ht : noPidfileOps t) :
    noPidfileOps (p ++ t) := by
  obtain ⟨a1, a2, a3⟩ := hp
  obtain ⟨b1, b2, b3⟩ := ht
  exact ⟨by simp [List.count_append, a1, b1], by simp [List.count_append, a2, b2],
    by simp [List.count_append, a3, b3]⟩

/-- A fatal exit without the lock held performs no PID-file operation. -/
theorem noPidfileOps_fatal (msg : String) : noPidfileOps (fatal msg false) := by
  simp [noPidfileOps, fatal, exitAndRemovePidFile, List.count_cons]

/-- A display session run without the PID-file lock held never touches a
PID file, on any of its paths. -/
theorem displaySession_noPidfileOps (isD : Bool) (env : Env) (fuel : Nat) (tr : List Event)
    (h : displaySession isD false env fuel = some tr) : noPidfileOps tr := by
  unfold displaySession at h
  split_ifs at h <;>
    first
      | (injection h with h
         subst h
         first
           | exact noPidfileOps_fatal _
           | exact noPidfileOps_append _ _ (by unfold noPidfileOps; decide)
               (noPidfileOps_fatal _))
      | (rcases mirrorLoop_shape isD false env fuel 0 with hm | ⟨msg, hm⟩ | hm <;> rw [hm] at h
         · simp at h
         · simp only [Option.map_some'] at h
           injection h with h
           subst h
           exact noPidfileOps_append _ _ (by unfold noPidfileOps; decide) (noPidfileOps_fatal _)
         · simp only [Option.map_some'] at h
           injection h with h
           subst h
           exact noPidfileOps_append _ _ (by unfold noPidfileOps; decide)
             (by cases isD <;> (unfold noPidfileOps cleanTeardown; decide)))

/-- C10: when daemon mode is not requested, the PID-file path is ignored:
whatever path is given, no completed execution ever opens, writes, or
removes a PID file (the handle stays null, so the removals are no-ops). -/
theorem pidfile_ignored_without_daemon (program : String) (pf : Option String)
    (lenv : LifecycleEnv) (env : Env) (fuel : Nat) (tr : List Event)
    (h : mainModel program false pf lenv env fuel = some tr) :
    noPidfileOps tr := by
  unfold mainModel at h
  have h2 : Option.map (fun x => ([] : List Event) ++ x)
      (displaySession false false env fuel) = some tr := h
  cases hds : displaySession false false env fuel with
  | none => rw [hds] at h2; simp at h2
  | some str =>
      rw [hds] at h2
      simp only [Option.map_some', List.nil_append] at h2
      injection h2 with h2
      subst h2
      exact displaySession_noPidfileOps false env fuel str hds

/-- Witness for `pidfile_ignored_without_daemon`: a foreground run given
a PID-file path exits cleanly with no PID-file operation in its trace. -/
theorem pidfile_ignored_witness :
    noPidfileOps (setupEvents ++ cleanTeardown false false) :=
  pidfile_ignored_without_daemon "p" (some "/tmp/x.pid") lenvOk envAllOk 1
    (setupEvents ++ cleanTeardown false false) (by decide)

end Raspi2Raspi
